import Mathlib

/-!
Verification of the OSINT-Dashboard interactive threat map
(`src/App.js`, React + d3) against its natural-language specification.

The map subsystem lives in one `useEffect` (App.js lines 252-560) plus the
`handleRefresh` callback (lines 150-166).  We embed the relevant state,
pure computations and event handlers as Lean definitions, translated
directly from the source, and prove or refute the specified properties.
Screen coordinates, scales and rotations are modelled as rationals.
-/

namespace OSINT

/-- The seven projection choices of the `switch (mapProjection)` statement
(App.js lines 287-315).  `natural` is the `default` branch
(`d3.geoNaturalEarth1`). -/
inductive ProjectionKind
  | natural
  | mercator
  | equirectangular
  | robinson
  | winkel3
  | eckert4
  | orthographic
  deriving DecidableEq, Repr

/-- Per-kind projection scale multiplier set in the same `switch`
(App.js lines 287-315): mercator 0.08, equirectangular/robinson/winkel3/
eckert4 0.11, orthographic 0.4, default (naturalEarth) 0.08. -/
def scaleMultiplier : ProjectionKind → ℚ
  | .mercator => 8 / 100
  | .equirectangular => 11 / 100
  | .robinson => 11 / 100
  | .winkel3 => 11 / 100
  | .eckert4 => 11 / 100
  | .orthographic => 4 / 10
  | .natural => 8 / 100

/-- A per-country risk record, the value shape of the `countryData` state
object (App.js lines 78-129).  `riskLevel` and `trend` are plain strings in
the source, so they are strings here. -/
structure RiskRecord where
  threats : Int
  incidents : Int
  riskLevel : String
  lastUpdate : String
  trend : String
  activeThreats : List String
  topTargets : List String
  mitigationStatus : String
  deriving DecidableEq, Repr

/-- `countryData`: a JS object mapping country display name to record,
modelled as an association list (keys unique in the source object). -/
abbrev CountryData := List (String × RiskRecord)

/-- The `'Germany'` entry of the initial `countryData` state
(App.js lines 109-118). -/
def germanyRecord : RiskRecord :=
  { threats := 12
    incidents := 3
    riskLevel := "medium"
    lastUpdate := "6 hours ago"
    trend := "decreasing"
    activeThreats := ["Phishing"]
    topTargets := ["Manufacturing"]
    mitigationStatus := "Contained" }

/-- The fallback record of the path click handler, written inline as
`countryData[countryName] || { threats: 0, ... }` (App.js lines 511-520). -/
def noDataRecord : RiskRecord :=
  { threats := 0
    incidents := 0
    riskLevel := "low"
    lastUpdate := "No data"
    trend := "stable"
    activeThreats := []
    topTargets := []
    mitigationStatus := "N/A" }

/-- The payload passed to `setSelectedCountry` on click
(App.js lines 507-522). -/
structure Selection where
  name : String
  data : RiskRecord
  deriving DecidableEq, Repr

/-- The path `click` handler (App.js lines 507-522): select the clicked
country's record from `countryData`, or the inline no-data fallback. -/
def clickSelection (countryData : CountryData) (countryName : String) : Selection :=
  { name := countryName
    data := (countryData.lookup countryName).getD noDataRecord }

/-- The path `fill` attribute function (App.js lines 463-472): a country
with data is coloured by risk level (high red, medium amber, otherwise
green); a country without data gets the theme's neutral fill. -/
def fillColor (darkMode : Bool) (countryData : CountryData) (countryName : String) : String :=
  match countryData.lookup countryName with
  | some data =>
      if data.riskLevel = "high" then "#ef4444"
      else if data.riskLevel = "medium" then "#f59e0b"
      else "#10b981"
  | none => if darkMode then "#374151" else "#e5e7eb"

/-- `pulseData` (App.js lines 524-531): country names of `countryData`
entries filtered to `riskLevel === 'high'`, each mapped to its matching
world-geometry feature or `null` when the geometry has no feature of that
name, then `.filter(Boolean)`.  `featureNames` stands for the
`d.properties.name` values of `countries.features`. -/
def pulseNames (countryData : CountryData) (featureNames : List String) : List String :=
  (countryData.filter (fun p => p.2.riskLevel == "high")).filterMap
    (fun p => if featureNames.contains p.1 then some p.1 else none)

/-- A d3 zoom transform: scale `k` and translate `(x, y)`.  The d3 zoom
behaviour stores one per svg node, starting at `d3.zoomIdentity`. -/
structure ZoomTransform where
  k : ℚ
  x : ℚ
  y : ℚ
  deriving DecidableEq, Repr

/-- `d3.zoomIdentity`: scale 1, translate (0, 0). -/
def zoomIdentity : ZoomTransform := ⟨1, 0, 0⟩

/-- `minZoom` (App.js line 349): 0.8 for the orthographic projection,
0.5 otherwise. -/
def minZoom (kind : ProjectionKind) : ℚ :=
  if kind = .orthographic then 8 / 10 else 1 / 2

/-- The upper bound of `scaleExtent([minZoom, 8])` (App.js line 351). -/
def maxZoom : ℚ := 8

/-- The clamp d3's zoom behaviour applies to every scale request under
`scaleExtent([minZoom, 8])` (App.js lines 350-351): requested scales are
clamped to the nearest bound, never rejected. -/
def clampScale (kind : ProjectionKind) (k : ℚ) : ℚ :=
  max (minZoom kind) (min maxZoom k)

/-- Scale commands reaching the zoom behaviour: relative (`zoom.scaleBy`,
used by the plus and minus buttons at App.js lines 369 and 389 and by wheel/pinch
gestures) and absolute (`zoom.scaleTo`). -/
inductive ZoomCmd
  | zoomBy (factor : ℚ)
  | zoomTo (scale : ℚ)
  deriving DecidableEq, Repr

/-- Effect of one scale command on the current scale under
`scaleExtent([minZoom kind, 8])`. -/
def applyZoom (kind : ProjectionKind) (s : ℚ) : ZoomCmd → ℚ
  | .zoomBy f => clampScale kind (s * f)
  | .zoomTo k => clampScale kind k

/-- Fold a sequence of scale commands over a starting scale. -/
def applyZoomSeq (kind : ProjectionKind) (s : ℚ) (cmds : List ZoomCmd) : ℚ :=
  cmds.foldl (applyZoom kind) s

/-- The live state a mounted map holds: the selected projection, the d3
zoom transform stored on the svg node, and the projection's rotation
triple (meaningful only for orthographic; a freshly built d3 projection
has rotation (0, 0, 0)). -/
structure MapView where
  kind : ProjectionKind
  transform : ZoomTransform
  rotation : ℚ × ℚ × ℚ
  deriving DecidableEq, Repr

/-- A fresh map built by the initialization effect (App.js lines 252-356):
the new svg's zoom store starts at `d3.zoomIdentity` (the `g` group carries
no transform until the first zoom event) and the new projection's rotation
is the d3 default (0, 0, 0). -/
def initMapView (kind : ProjectionKind) : MapView :=
  { kind := kind, transform := zoomIdentity, rotation := (0, 0, 0) }

/-- A projection switch: `setMapProjection` changes the `mapProjection`
dependency of the effect (App.js line 560), so the effect re-runs, executes
`d3.select(d3Container.current).selectAll("*").remove()` (line 260) and
rebuilds svg, zoom behaviour and projection from scratch.  Nothing of the
prior view's transform or rotation is read or carried over. -/
def rebuildMap (_prior : MapView) (newKind : ProjectionKind) : MapView :=
  initMapView newKind

/-- The `dblclick.zoom` handler (App.js lines 359-363): a 750 ms transition
to `d3.zoomIdentity`.  Its end state sets the zoom transform to identity;
the handler never touches `projection.rotate`. -/
def dblclickReset (m : MapView) : MapView :=
  { m with transform := zoomIdentity }

/-- The distinct things the initialization effect appends to the document,
in source order. `errorNotice` stands for any error-state rendering or
error callback; it appears in no branch of the source. -/
inductive MapDrawOp
  | svgCanvas
  | tooltipDiv
  | zoomControls
  | countryPaths
  | pulseCircles
  | errorNotice
  deriving DecidableEq, Repr

/-- The draw operations the map-initialization effect performs, as a
function of viewport size and of whether the one-shot `d3.json` fetch of
the world geometry succeeds.  Translated from App.js lines 252-555: the
svg (line 262), the tooltip div (line 273) and the four-button zoom
control overlay (lines 366-453) are appended synchronously and
unconditionally — the source never tests `width` or `height` — before
`d3.json(...).then(...)` resolves; the country paths (lines 459-522) and
pulse circles (lines 533-542) are appended only inside the `then` handler,
which runs only on success; the promise has no `catch` handler and the
effect has no error branch. -/
def mapEffectOps (_width _height : ℚ) (fetchSucceeds : Bool) : List MapDrawOp :=
  [.svgCanvas, .tooltipDiv, .zoomControls] ++
    (if fetchSucceeds then [.countryPaths, .pulseCircles] else [])

/-- The configured d3 projection the effect builds (App.js lines 317-323):
`projectionFunc.scale(Math.min(width, height) * scaleMultiplier)`,
`.translate([width / 2, height / 2])`, and `clipAngle(90)` for the
orthographic projection.  The construction is unconditional: there is no
viewport validation and no failure path. -/
structure ProjectionConfig where
  kind : ProjectionKind
  scale : ℚ
  translate : ℚ × ℚ
  clipAngle : Option ℚ
  deriving DecidableEq, Repr

def buildProjection (kind : ProjectionKind) (width height : ℚ) : ProjectionConfig :=
  { kind := kind
    scale := min width height * scaleMultiplier kind
    translate := (width / 2, height / 2)
    clipAngle := if kind = .orthographic then some 90 else none }

/-- One random draw of `handleRefresh` for one country (App.js lines
156-159): `change = Math.random() > 0.5 ? 1 : -1` (here `up`) and
`Math.floor(Math.random() * 5)` (here `magnitude`, always in 0..4 since
`Math.random()` is in [0, 1)). -/
structure RefreshDraw where
  up : Bool
  magnitude : Nat
  deriving DecidableEq, Repr

/-- Update of one record inside `handleRefresh` (App.js lines 158-159):
`threats += change * Math.floor(Math.random() * 5)` and
`lastUpdate = 'Just now'`.  No clamping is applied to `threats`. -/
def refreshRecord (draw : RefreshDraw) (r : RiskRecord) : RiskRecord :=
  { r with
      threats := r.threats + (if draw.up then 1 else -1) * (draw.magnitude : Int)
      lastUpdate := "Just now" }

/-- `handleRefresh` (App.js lines 150-166) applied to the country data:
every country's record is updated with its own random draw. -/
def handleRefresh (draws : String → RefreshDraw) (d : CountryData) : CountryData :=
  d.map (fun p => (p.1, refreshRecord (draws p.1) p.2))

/-- A sequence of refreshes, each with its own random draws. -/
def applyRefreshes (drawss : List (String → RefreshDraw)) (d : CountryData) : CountryData :=
  drawss.foldl (fun acc f => handleRefresh f acc) d

/-- The closure state captured by `dragstarted` (App.js lines 328-331):
`v0 = d3.pointer(event)` and `q0 = projection.rotate()` (its first two
components; the source only ever uses `q0[0]` and `q0[1]`). -/
structure DragState where
  v0 : ℚ × ℚ
  q0 : ℚ × ℚ
  deriving DecidableEq, Repr

def dragstarted (pointer rotation : ℚ × ℚ) : DragState :=
  { v0 := pointer, q0 := rotation }

/-- `dragged` (App.js lines 333-338): the rotation written by one
drag-move event at pointer position `v1` is computed from the captured
baseline, `r1 = [q0[0] + (v1[0] - v0[0]) * 0.5, q0[1] - (v1[1] - v0[1]) * 0.5]`
(screen y grows downward, hence the minus on the second component). -/
def dragged (st : DragState) (v1 : ℚ × ℚ) : ℚ × ℚ :=
  (st.q0.1 + (v1.1 - st.v0.1) * (1 / 2), st.q0.2 - (v1.2 - st.v0.2) * (1 / 2))

/-- The projection rotation after a run of drag-move events: each event
overwrites `projection.rotate` with `dragged st v1`, so the stored
rotation after the run is that of the last event (or the initial rotation
when there was none). -/
def dragRotation (st : DragState) (initRot : ℚ × ℚ) (moves : List (ℚ × ℚ)) : ℚ × ℚ :=
  moves.foldl (fun _ v1 => dragged st v1) initRot

/-- The drag behaviour is attached to the svg only inside the
`if (mapProjection === 'orthographic')` block (App.js lines 322, 340-344);
for every other projection no drag handler exists. -/
def dragEnabled (kind : ProjectionKind) : Bool :=
  kind == .orthographic

/-- Rotation of the projection after a drag gesture that starts at pointer
`p0` with current rotation `r0` and then sees the drag-move pointer
positions `moves`: for the orthographic projection the attached handlers
run; for any other projection the gesture leaves the rotation untouched. -/
def rotationAfterDrag (kind : ProjectionKind) (p0 r0 : ℚ × ℚ)
    (moves : List (ℚ × ℚ)) : ℚ × ℚ :=
  if dragEnabled kind then dragRotation (dragstarted p0 r0) r0 moves else r0

/-- A risk record used to instantiate the spec's pulse-marker example
datasets: only `riskLevel` matters to the pulse computation. -/
def sampleRecord (level : String) : RiskRecord :=
  { threats := 1
    incidents := 1
    riskLevel := level
    lastUpdate := "now"
    trend := "stable"
    activeThreats := []
    topTargets := []
    mitigationStatus := "N/A" }

/-- A concrete refresh draw: `Math.random() ≤ 0.5` (change −1) and
`Math.floor(Math.random() * 5) = 4`, for every country. -/
def downFour : String → RefreshDraw :=
  fun _ => { up := false, magnitude := 4 }

/-! ## Theorems -/

/-- C1 counterexample: start from a natural-earth view panned and zoomed to
scale 3.2, translate (40, -10), switch to the orthographic projection; the
rebuilt view's zoom transform is the identity, not the prior transform, so
pan/zoom is NOT preserved across a projection switch. -/
theorem projection_switch_counterexample :
    (rebuildMap
        { kind := .natural, transform := ⟨32 / 10, 40, -10⟩, rotation := (0, 0, 0) }
        .orthographic).transform ≠ ⟨32 / 10, 40, -10⟩ := by
  intro h
  have hk : (1 : ℚ) = 32 / 10 := congrArg ZoomTransform.k h
  norm_num at hk

/-- C1 (amended): switching `ProjectionKind` re-runs the initialization
effect, which removes the previous svg and rebuilds everything from
scratch; the new view's zoom transform is always `d3.zoomIdentity`
(scale 1, translate (0, 0)) and its rotation (0, 0, 0), whatever the prior
pan/zoom was — the view transform is reset, not preserved. -/
theorem projection_switch_resets_view (prior : MapView) (kind : ProjectionKind) :
    (rebuildMap prior kind).transform = zoomIdentity ∧
    (rebuildMap prior kind).rotation = (0, 0, 0) ∧
    (rebuildMap prior kind).kind = kind :=
  ⟨rfl, rfl, rfl⟩

/-- C9 counterexample: with the orthographic projection rotated to
(10, 5, 0) and the view at scale 3.2, translate (40, -10), the
double-click reset ends with rotation still (10, 5, 0), not (0, 0, 0):
the `dblclick.zoom` handler never touches `projection.rotate`. -/
theorem dblclick_reset_counterexample :
    (dblclickReset
        { kind := .orthographic, transform := ⟨32 / 10, 40, -10⟩,
          rotation := (10, 5, 0) }).rotation ≠ (0, 0, 0) := by
  simp [dblclickReset]

/-- C9 (amended): for every prior view transform and every projection, the
double-click handler's 750 ms transition ends at zoom scale 1 and
translate (0, 0); the projection rotation is left at its prior value
rather than being reset to (0, 0, 0). -/
theorem dblclick_reset_transform (m : MapView) :
    (dblclickReset m).transform.k = 1 ∧
    (dblclickReset m).transform.x = 0 ∧
    (dblclickReset m).transform.y = 0 ∧
    (dblclickReset m).rotation = m.rotation :=
  ⟨rfl, rfl, rfl, rfl⟩

/-- C2 counterexample: when the world-geometry fetch fails, the effect
renders no error state (there is no `catch` handler and no error branch)
and the zoom-control overlay has already been drawn before the fetch
resolved — so the engine neither enters a defined error state, nor
notifies the host, nor refrains from rendering before the load resolves. -/
theorem geometry_failure_counterexample :
    MapDrawOp.errorNotice ∉ mapEffectOps 800 600 false ∧
    MapDrawOp.zoomControls ∈ mapEffectOps 800 600 false := by
  decide

/-- C2 (amended): a failed world-geometry fetch is silent: the `then`
handler is skipped, so the country paths and pulse circles are never
drawn, and no error state or error callback exists in any branch; the svg
canvas, tooltip and zoom controls are rendered unconditionally before the
fetch resolves, on success and failure alike. -/
theorem geometry_failure_silent (w h : ℚ) (b : Bool) :
    MapDrawOp.errorNotice ∉ mapEffectOps w h b ∧
    MapDrawOp.countryPaths ∉ mapEffectOps w h false ∧
    MapDrawOp.pulseCircles ∉ mapEffectOps w h false ∧
    MapDrawOp.zoomControls ∈ mapEffectOps w h b ∧
    MapDrawOp.svgCanvas ∈ mapEffectOps w h b ∧
    (MapDrawOp.countryPaths ∈ mapEffectOps w h b ↔ b = true) := by
  cases b <;> simp [mapEffectOps]

/-- C3 counterexample: with viewport width 0 the engine does not fail —
it builds the projection anyway (with scale 0 = min(0, 700) · 0.08),
creates the svg and proceeds; no InvalidViewport error exists anywhere. -/
theorem invalid_viewport_counterexample :
    (buildProjection .natural 0 700).scale = 0 ∧
    MapDrawOp.svgCanvas ∈ mapEffectOps 0 700 true ∧
    MapDrawOp.errorNotice ∉ mapEffectOps 0 700 true := by
  refine ⟨?_, by simp [mapEffectOps], by simp [mapEffectOps]⟩
  norm_num [buildProjection, scaleMultiplier, min_def]

/-- C3 (amended): the source performs no viewport validation: for every
viewport, including one with width ≤ 0, the svg is created, no error
is raised, and the projection is built unconditionally with scale
min(width, height) · multiplier — which is ≤ 0 when width ≤ 0. -/
theorem no_viewport_validation (kind : ProjectionKind) (w h : ℚ) (b : Bool)
    (hw : w ≤ 0) :
    MapDrawOp.svgCanvas ∈ mapEffectOps w h b ∧
    MapDrawOp.errorNotice ∉ mapEffectOps w h b ∧
    (buildProjection kind w h).scale ≤ 0 ∧
    (buildProjection kind w h).translate = (w / 2, h / 2) := by
  have hmult : 0 < scaleMultiplier kind := by
    cases kind <;> norm_num [scaleMultiplier]
  refine ⟨?_, ?_, ?_, rfl⟩
  · cases b <;> simp [mapEffectOps]
  · cases b <;> simp [mapEffectOps]
  · exact mul_nonpos_iff.mpr (Or.inr ⟨le_trans (min_le_left w h) hw, hmult.le⟩)

/-- Witness for `no_viewport_validation` at width 0, height 700. -/
theorem no_viewport_validation_witness :
    (0 : ℚ) ≤ 0 ∧ (buildProjection .natural 0 700).scale ≤ 0 :=
  ⟨le_refl 0, (no_viewport_validation .natural 0 700 true (le_refl 0)).2.2.1⟩

/-- The lower zoom bound never exceeds the upper one. -/
theorem minZoom_le_maxZoom (kind : ProjectionKind) : minZoom kind ≤ maxZoom := by
  unfold minZoom maxZoom
  split <;> norm_num

/-- Every clamped scale lands inside the configured extent. -/
theorem clampScale_mem (kind : ProjectionKind) (k : ℚ) :
    minZoom kind ≤ clampScale kind k ∧ clampScale kind k ≤ maxZoom :=
  ⟨le_max_left _ _, max_le (minZoom_le_maxZoom kind) (min_le_left _ _)⟩

/-- One zoom command keeps the scale inside the extent. -/
theorem applyZoom_mem (kind : ProjectionKind) (s : ℚ) (c : ZoomCmd) :
    minZoom kind ≤ applyZoom kind s c ∧ applyZoom kind s c ≤ maxZoom := by
  cases c <;> exact clampScale_mem kind _

/-- Any command sequence starting inside the extent stays inside it. -/
theorem applyZoomSeq_mem (kind : ProjectionKind) (cmds : List ZoomCmd) (s : ℚ)
    (h1 : minZoom kind ≤ s) (h2 : s ≤ maxZoom) :
    minZoom kind ≤ applyZoomSeq kind s cmds ∧ applyZoomSeq kind s cmds ≤ maxZoom := by
  induction cmds generalizing s with
  | nil => exact ⟨h1, h2⟩
  | cons c cs ih =>
      have h := applyZoom_mem kind s c
      simpa [applyZoomSeq] using ih (applyZoom kind s c) h.1 h.2

/-- C4: starting from the initial scale 1, every sequence of relative or
absolute zoom commands leaves the scale in [minZoom, maxZoom], with
minZoom = 0.8 for the orthographic projection and 0.5 otherwise and
maxZoom = 8 for all projections; an out-of-range request is clamped to
the nearest bound, never rejected. -/
theorem zoom_scale_always_clamped (kind : ProjectionKind) (cmds : List ZoomCmd) :
    minZoom kind ≤ applyZoomSeq kind 1 cmds ∧
    applyZoomSeq kind 1 cmds ≤ maxZoom ∧
    minZoom kind = (if kind = .orthographic then 8 / 10 else 1 / 2) ∧
    maxZoom = 8 ∧
    (∀ s k, maxZoom < k → applyZoom kind s (.zoomTo k) = maxZoom) ∧
    (∀ s k, k < minZoom kind → applyZoom kind s (.zoomTo k) = minZoom kind) := by
  have hinit : minZoom kind ≤ 1 ∧ (1 : ℚ) ≤ maxZoom := by
    unfold minZoom maxZoom
    split <;> norm_num
  have hmem := applyZoomSeq_mem kind cmds 1 hinit.1 hinit.2
  refine ⟨hmem.1, hmem.2, rfl, rfl, ?_, ?_⟩
  · intro s k hk
    have h1 : min maxZoom k = maxZoom := min_eq_left hk.le
    simp [applyZoom, clampScale, h1, max_eq_right (minZoom_le_maxZoom kind)]
  · intro s k hk
    have h1 : min maxZoom k = k := min_eq_right (hk.le.trans (minZoom_le_maxZoom kind))
    simp [applyZoom, clampScale, h1, max_eq_left hk.le]

/-- Witness for `zoom_scale_always_clamped`: a zoom-to 100 request is
clamped to the upper bound 8, and a zoom-to 0.1 request to the lower
bound. -/
theorem zoom_scale_always_clamped_witness :
    applyZoom .orthographic 1 (.zoomTo 100) = maxZoom ∧
    applyZoom .natural 1 (.zoomTo (1 / 10)) = minZoom .natural :=
  ⟨(zoom_scale_always_clamped .orthographic []).2.2.2.2.1 1 100 (by norm_num [maxZoom]),
   (zoom_scale_always_clamped .natural []).2.2.2.2.2 1 (1 / 10)
     (by simp only [minZoom,
        if_neg (by decide : ¬ (ProjectionKind.natural = ProjectionKind.orthographic))]
         norm_num)⟩

/-- C6: clicking a country emits a `Selection` carrying the country name
and its `RiskRecord` when the name is a key of the dataset, and otherwise
the inline zero-valued no-data record: threats 0, incidents 0, riskLevel
low, trend stable, empty threat and target lists, mitigationStatus
"N/A". -/
theorem click_selection_spec (d : CountryData) (n : String) :
    (∀ r, d.lookup n = some r → clickSelection d n = ⟨n, r⟩) ∧
    (d.lookup n = none → clickSelection d n = ⟨n, noDataRecord⟩) ∧
    noDataRecord.threats = 0 ∧ noDataRecord.incidents = 0 ∧
    noDataRecord.riskLevel = "low" ∧ noDataRecord.trend = "stable" ∧
    noDataRecord.activeThreats = [] ∧ noDataRecord.topTargets = [] ∧
    noDataRecord.mitigationStatus = "N/A" := by
  refine ⟨?_, ?_, rfl, rfl, rfl, rfl, rfl, rfl, rfl⟩
  · intro r h
    simp [clickSelection, h]
  · intro h
    simp [clickSelection, h]

/-- Witness for `click_selection_spec`: clicking Germany yields its
record; clicking France (absent from the dataset) yields the no-data
record. -/
theorem click_selection_spec_witness :
    clickSelection [("Germany", germanyRecord)] "Germany" = ⟨"Germany", germanyRecord⟩ ∧
    clickSelection [("Germany", germanyRecord)] "France" = ⟨"France", noDataRecord⟩ :=
  ⟨(click_selection_spec [("Germany", germanyRecord)] "Germany").1 germanyRecord rfl,
   (click_selection_spec [("Germany", germanyRecord)] "France").2.1 rfl⟩

/-- C7: the fill of a rendered country is chosen by priority: a country
whose name is a dataset key is coloured by risk level (high red #ef4444,
medium amber #f59e0b, low green #10b981); a country without data gets the
theme's neutral fill, #374151 in dark mode and #e5e7eb in light mode. -/
theorem country_fill_priority (dark : Bool) (d : CountryData) (n : String) :
    (∀ r, d.lookup n = some r →
        (r.riskLevel = "high" → fillColor dark d n = "#ef4444") ∧
        (r.riskLevel = "medium" → fillColor dark d n = "#f59e0b") ∧
        (r.riskLevel = "low" → fillColor dark d n = "#10b981")) ∧
    (d.lookup n = none →
        fillColor dark d n = if dark then "#374151" else "#e5e7eb") := by
  constructor
  · intro r h
    refine ⟨fun hr => ?_, fun hr => ?_, fun hr => ?_⟩ <;>
      simp [fillColor, h, hr]
  · intro h
    simp [fillColor, h]

/-- Witness for `country_fill_priority`: Germany (medium risk) is amber;
France (no data) gets the dark-theme neutral fill. -/
theorem country_fill_priority_witness :
    fillColor true [("Germany", germanyRecord)] "Germany" = "#f59e0b" ∧
    fillColor true [("Germany", germanyRecord)] "France" = "#374151" :=
  ⟨((country_fill_priority true [("Germany", germanyRecord)] "Germany").1
      germanyRecord rfl).2.1 rfl,
   (country_fill_priority true [("Germany", germanyRecord)] "France").2 rfl⟩

/-- A name is in the pulse set exactly when the dataset holds it with
high risk and the world geometry has a feature of that name. -/
theorem mem_pulseNames (d : CountryData) (features : List String) (n : String) :
    n ∈ pulseNames d features ↔
      (∃ r, (n, r) ∈ d ∧ r.riskLevel = "high") ∧ n ∈ features := by
  simp only [pulseNames, List.mem_filterMap, List.mem_filter]
  constructor
  · rintro ⟨⟨a, b⟩, ⟨hmem, hhigh⟩, heq⟩
    by_cases hc : features.contains a = true
    · rw [if_pos hc] at heq
      obtain rfl : a = n := by simpa using heq
      refine ⟨⟨b, hmem, by simpa using hhigh⟩, ?_⟩
      simpa [List.contains, List.elem_iff] using hc
    · rw [if_neg hc] at heq
      exact absurd heq (by simp)
  · rintro ⟨⟨r, hmem, hhigh⟩, hf⟩
    refine ⟨(n, r), ⟨hmem, by simpa using hhigh⟩, ?_⟩
    rw [if_pos (by simpa [List.contains, List.elem_iff] using hf)]

/-- C8 counterexample: a dataset whose single country "X" is high-risk,
rendered against a world geometry with no feature named "X", yields an
empty pulse set — so the pulse set is not always exactly the high-risk
subset of the dataset. -/
theorem pulse_markers_counterexample :
    (sampleRecord "high").riskLevel = "high" ∧
    ("X", sampleRecord "high") ∈ ([("X", sampleRecord "high")] : CountryData) ∧
    "X" ∉ pulseNames [("X", sampleRecord "high")] [] := by
  decide

/-- C8 (amended): after a render pass the pulse set equals the dataset
countries of high risk level that have a matching feature in the world
geometry; in particular, for the dataset {X high, Y medium, Z high} with
all three present in the geometry it is exactly {X, Z}, excluding Y. -/
theorem pulse_markers_high_and_in_geometry (d : CountryData)
    (features : List String) (n : String) :
    (n ∈ pulseNames d features ↔
      (∃ r, (n, r) ∈ d ∧ r.riskLevel = "high") ∧ n ∈ features) ∧
    pulseNames
      [("X", sampleRecord "high"), ("Y", sampleRecord "medium"),
       ("Z", sampleRecord "high")] ["X", "Y", "Z"] = ["X", "Z"] :=
  ⟨mem_pulseNames d features n, by decide⟩

/-- Witness for `pulse_markers_high_and_in_geometry`: "Z" is in the pulse
set of the example dataset. -/
theorem pulse_markers_high_and_in_geometry_witness :
    "Z" ∈ pulseNames
      [("X", sampleRecord "high"), ("Y", sampleRecord "medium"),
       ("Z", sampleRecord "high")] ["X", "Y", "Z"] :=
  (pulse_markers_high_and_in_geometry _ _ "Z").1.mpr
    ⟨⟨sampleRecord "high", by decide, rfl⟩, by decide⟩

/-- After a run of drag-move events ending at `v`, the stored rotation is
the one the last event computed from the captured baseline. -/
theorem dragRotation_append (st : DragState) (r0 : ℚ × ℚ)
    (moves : List (ℚ × ℚ)) (v : ℚ × ℚ) :
    dragRotation st r0 (moves ++ [v]) = dragged st v := by
  simp [dragRotation, List.foldl_append]

/-- C10: during an orthographic drag, the rotation after any run of
drag-move events ending at pointer `vlast` is the baseline rotation plus
half the total pointer delta from the drag-start position (the second
component with the sign flip of the downward screen y axis) — identical
to what the final event alone would produce, so intermediate events
cannot accumulate drift; for every non-orthographic projection the drag
handlers are not attached and the rotation is untouched. -/
theorem orthographic_drag_baseline_relative (kind : ProjectionKind)
    (p0 r0 : ℚ × ℚ) (moves : List (ℚ × ℚ)) (vlast : ℚ × ℚ) :
    (kind = .orthographic →
        rotationAfterDrag kind p0 r0 (moves ++ [vlast]) =
          (r0.1 + (vlast.1 - p0.1) * (1 / 2),
           r0.2 - (vlast.2 - p0.2) * (1 / 2)) ∧
        rotationAfterDrag kind p0 r0 (moves ++ [vlast]) =
          rotationAfterDrag kind p0 r0 [vlast]) ∧
    (kind ≠ .orthographic → rotationAfterDrag kind p0 r0 moves = r0) := by
  constructor
  · rintro rfl
    constructor
    · simp [rotationAfterDrag, dragEnabled, dragRotation_append, dragged, dragstarted]
    · have h1 := dragRotation_append (dragstarted p0 r0) r0 moves vlast
      have h2 := dragRotation_append (dragstarted p0 r0) r0 [] vlast
      simp only [List.nil_append] at h2
      simp [rotationAfterDrag, dragEnabled, h1, h2]
  · intro h
    have hd : dragEnabled kind = false := by
      simp [dragEnabled, h]
    simp [rotationAfterDrag, hd]

/-- Witness for `orthographic_drag_baseline_relative`: an orthographic
drag from pointer (0, 0) through (2, 2) to (10, 4) with baseline rotation
(0, 0) ends at rotation (5, −2); the same pointer run under the
natural-earth projection leaves the rotation at (0, 0). -/
theorem orthographic_drag_baseline_relative_witness :
    rotationAfterDrag .orthographic (0, 0) (0, 0) ([(2, 2)] ++ [(10, 4)]) = (5, -2) ∧
    rotationAfterDrag .natural (0, 0) (0, 0) [(2, 2)] = (0, 0) := by
  constructor
  · rw [((orthographic_drag_baseline_relative .orthographic (0, 0) (0, 0)
        [(2, 2)] (10, 4)).1 rfl).1]
    norm_num [Prod.ext_iff]
  · exact (orthographic_drag_baseline_relative .natural (0, 0) (0, 0)
      [(2, 2)] (10, 4)).2 (by decide)

/-- `lookup` after one refresh: each stored record is rewritten with its
own country's draw. -/
theorem lookup_handleRefresh (f : String → RefreshDraw) (d : CountryData) (n : String) :
    (handleRefresh f d).lookup n = (d.lookup n).map (fun r => refreshRecord (f n) r) := by
  induction d with
  | nil => rfl
  | cons p t ih =>
      obtain ⟨k, v⟩ := p
      by_cases hk : (n == k) = true
      · obtain rfl : n = k := by simpa using hk
        simp [handleRefresh, List.lookup]
      · have hk' : (n == k) = false := by simpa using hk
        simpa [handleRefresh, List.lookup, hk'] using ih

/-- `lookup` after a sequence of refreshes: the original record folded
through each refresh's draw for that country. -/
theorem lookup_applyRefreshes (drawss : List (String → RefreshDraw))
    (d : CountryData) (n : String) :
    (applyRefreshes drawss d).lookup n =
      (d.lookup n).map
        (fun r => drawss.foldl (fun acc f => refreshRecord (f n) acc) r) := by
  induction drawss generalizing d with
  | nil => cases h : d.lookup n <;> simp [applyRefreshes, h]
  | cons f fs ih =>
      have h1 : applyRefreshes (f :: fs) d = applyRefreshes fs (handleRefresh f d) := rfl
      rw [h1, ih, lookup_handleRefresh]
      cases h : d.lookup n <;> simp

/-- Folding draws of magnitude at most 4 moves `threats` by at most 4 per
step, in either direction. -/
theorem foldl_refresh_threats_bound (n : String) (fs : List (String → RefreshDraw)) :
    ∀ r : RiskRecord, (∀ f ∈ fs, (f n).magnitude ≤ 4) →
      r.threats - 4 * fs.length ≤
          (fs.foldl (fun acc f => refreshRecord (f n) acc) r).threats ∧
      (fs.foldl (fun acc f => refreshRecord (f n) acc) r).threats ≤
          r.threats + 4 * fs.length := by
  induction fs with
  | nil => intro r h; simp
  | cons f fs ih =>
      intro r h
      have hf : (f n).magnitude ≤ 4 := h f (List.mem_cons_self _ _)
      have hrest := ih (refreshRecord (f n) r)
        (fun g hg => h g (List.mem_cons_of_mem _ hg))
      have hthreats : (refreshRecord (f n) r).threats =
          r.threats + (if (f n).up then 1 else -1) * ((f n).magnitude : Int) := rfl
      have hmag : ((f n).magnitude : Int) ≤ 4 := by exact_mod_cast hf
      have hmag0 : (0 : Int) ≤ ((f n).magnitude : Int) := Int.ofNat_nonneg _
      have hdelta : -4 ≤ (if (f n).up then 1 else -1) * ((f n).magnitude : Int) ∧
          (if (f n).up then 1 else -1) * ((f n).magnitude : Int) ≤ 4 := by
        by_cases hu : (f n).up <;> simp [hu] <;> constructor <;> linarith
      rw [hthreats] at hrest
      simp only [List.foldl_cons, List.length_cons]
      constructor
      · have h1 := hrest.1
        have h2 := hdelta.1
        push_cast
        push_cast at h1
        linarith
      · have h1 := hrest.2
        have h2 := hdelta.2
        push_cast
        push_cast at h1
        linarith

/-- C5 counterexample: starting from the source's Germany record
(threats 12), four refreshes that each draw change −1 and magnitude 4
leave Germany with threats −4 < 0: `handleRefresh` applies no lower
clamp, so the non-negativity claim fails. -/
theorem refresh_negative_counterexample :
    (applyRefreshes [downFour, downFour, downFour, downFour]
        [("Germany", germanyRecord)]).lookup "Germany" =
      some { germanyRecord with threats := -4, lastUpdate := "Just now" } ∧
    ({ germanyRecord with threats := -4, lastUpdate := "Just now" } : RiskRecord).threats < 0 := by
  decide

/-- C5 (amended): a refresh moves each country's `threats` by
`change · magnitude` with change ±1 and magnitude in 0..4, and applies no
clamping, so after n refreshes the count lies within ±4n of its starting
value — but it is not kept non-negative. -/
theorem refresh_threats_bounded (drawss : List (String → RefreshDraw))
    (d : CountryData)
    (hmag : ∀ f ∈ drawss, ∀ c, (f c).magnitude ≤ 4)
    (n : String) (r0 r1 : RiskRecord)
    (h0 : d.lookup n = some r0)
    (h1 : (applyRefreshes drawss d).lookup n = some r1) :
    r0.threats - 4 * drawss.length ≤ r1.threats ∧
    r1.threats ≤ r0.threats + 4 * drawss.length := by
  rw [lookup_applyRefreshes, h0] at h1
  simp at h1
  subst h1
  exact foldl_refresh_threats_bound n drawss r0 (fun f hf => hmag f hf n)

/-- Witness for `refresh_threats_bounded`: one down-4 refresh of the
Germany record lands within the ±4 band around its starting 12. -/
theorem refresh_threats_bounded_witness :
    germanyRecord.threats -
        4 * ([downFour] : List (String → RefreshDraw)).length ≤
      (refreshRecord (downFour "Germany") germanyRecord).threats ∧
    (refreshRecord (downFour "Germany") germanyRecord).threats ≤
      germanyRecord.threats +
        4 * ([downFour] : List (String → RefreshDraw)).length :=
  refresh_threats_bounded [downFour] [("Germany", germanyRecord)]
    (fun f hf c => by
      obtain rfl : f = downFour := by simpa using hf
      exact le_refl 4)
    "Germany" germanyRecord (refreshRecord (downFour "Germany") germanyRecord)
    rfl (by decide)

end OSINT
